import Mathlib

/-!
Verification development for the depth-sensing subsystem of the xrblocks
repository (class Depth in src/depth/Depth.ts, embedded here over exact
rational arithmetic).  JS numbers are modelled as rationals, JS machine
arrays as Lean lists, sparse JS index assignment as list padding, and
operations that can raise a TypeError as Except-valued functions where
Except.error models a thrown exception.  three.js collaborator operations
(Matrix4, Vector3, Quaternion) are modelled after their documented
semantics: a fresh Matrix4 is the identity, Matrix4.invert of a singular
matrix yields the zero matrix, Vector3.applyMatrix4 performs the
perspective divide.
-/

/-- Rational 3-vector, modelling THREE.Vector3. -/
structure Vec3 where
  x : ℚ
  y : ℚ
  z : ℚ
deriving DecidableEq

/-- Quaternion record, modelling THREE.Quaternion (w last, identity 0 0 0 1). -/
structure Quat where
  x : ℚ
  y : ℚ
  z : ℚ
  w : ℚ
deriving DecidableEq

/-- 4 by 4 rational matrix, modelling THREE.Matrix4. -/
abbrev Mat4 := Matrix (Fin 4) (Fin 4) ℚ

/-- The zero 3-vector (a fresh THREE.Vector3). -/
def vec3Zero : Vec3 := { x := 0, y := 0, z := 0 }

/-- The identity quaternion (a fresh THREE.Quaternion). -/
def quatId : Quat := { x := 0, y := 0, z := 0, w := 1 }

/-- THREE.Matrix4.invert: the inverse when the determinant is nonzero and
the zero matrix otherwise (three.js sets every element to zero when the
determinant vanishes). -/
def mat4Invert (m : Mat4) : Mat4 :=
  if m.det = 0 then 0 else m.det⁻¹ • m.adjugate

/-- THREE.Vector3.applyMatrix4: homogeneous transform with perspective
divide.  Division by a zero denominator yields 0 in this rational model
(the JS code produces non-finite numbers there; no exception either way). -/
def applyMatrix4 (m : Mat4) (v : Vec3) : Vec3 :=
  let w := m 3 0 * v.x + m 3 1 * v.y + m 3 2 * v.z + m 3 3
  { x := (m 0 0 * v.x + m 0 1 * v.y + m 0 2 * v.z + m 0 3) / w,
    y := (m 1 0 * v.x + m 1 1 * v.y + m 1 2 * v.z + m 1 3) / w,
    z := (m 2 0 * v.x + m 2 1 * v.y + m 2 2 * v.z + m 2 3) / w }

/-- THREE.Vector3.multiplyScalar. -/
def smulV3 (a : ℚ) (v : Vec3) : Vec3 := { x := a * v.x, y := a * v.y, z := a * v.z }

/-- Modelled from the spec: the clamp helper imported from src/utils/utils
is not among the provided sources; the spec states that out-of-range
inputs are clamped, so clamp restricts a value to the closed interval
from lo to hi (the standard max-of-min form). -/
def clamp (value lo hi : ℚ) : ℚ := max lo (min hi value)

/-- An XRRigidTransform as consumed by updateDepthMatrices: the code uses
transform.inverse.matrix (stored pre-decoded as inverseMatrix here, the
column-major decoding of Matrix4.fromArray being the identity in this
model), transform.position, and transform.orientation. -/
structure XRRigidTransform where
  inverseMatrix : Mat4
  position : Vec3
  orientation : Quat

/-- One view of CPU-format raw depth: XRCPUDepthInformation.  The data
buffer is stored as the list of raw numeric values; the useFloat32
reinterpretation of the underlying bytes is value-preserving in this
model. -/
structure XRCPUDepthInformation where
  width : Nat
  height : Nat
  rawValueToMeters : ℚ
  data : List ℚ
  projectionMatrix : Option Mat4
  transform : Option XRRigidTransform

/-- One view of GPU-format raw depth: XRWebGLDepthInformation, carrying a
texture handle rather than a queryable buffer. -/
structure XRWebGLDepthInformation where
  rawValueToMeters : ℚ
  textureId : Nat
  projectionMatrix : Option Mat4
  transform : Option XRRigidTransform

/-- The fields of a THREE camera read on the fallback path of
updateDepthMatrices. -/
structure Camera where
  projectionMatrix : Mat4
  matrixWorldInverse : Mat4
  position : Vec3
  quaternion : Quat

/-- The DepthOptions flags consulted by the Depth class. -/
structure DepthOptions where
  enabled : Bool
  useFloat32 : Bool
  depthTextureEnabled : Bool
  depthMeshEnabled : Bool
  occlusionEnabled : Bool

/-- A record of one DepthTextures update: updateData on the CPU path,
updateNativeTexture on the GPU path. -/
inductive TexRecord where
  | cpu (data : XRCPUDepthInformation)
  | gpu (data : XRWebGLDepthInformation)

/-- A record of one DepthMesh geometry update: updateDepth with a CPU
buffer, or updateGPUDepth with a GPU handle; both receive the view-0
inverse projection matrix. -/
inductive MeshUpdate where
  | cpu (data : XRCPUDepthInformation) (projectionInverse : Mat4)
  | gpu (data : XRWebGLDepthInformation) (projectionInverse : Mat4)

/-- Observable state of the external DepthMesh collaborator: the sequence
of geometry updates it received and its pose. -/
structure DepthMeshState where
  updates : List MeshUpdate
  position : Vec3
  quaternion : Quat

/-- Depth delivery mode declared by the session (session.depthUsage). -/
inductive DepthUsage where
  | cpuOptimized
  | gpuOptimized
deriving DecidableEq

/-- The XRSession fields consulted by updateLocalDepth.  depthActive is
none when the platform does not expose pausable depth sensing. -/
structure Session where
  depthActive : Option Bool
  depthUsage : DepthUsage

/-- Per-frame environment: everything updateLocalDepth reads from its
collaborators.  cpuInfo and gpuInfo give the raw depth information the
frame or the binding returns for the view at a given index, cameras is
the color-camera fallback of updateDepthMatrices, convertGPUToGPU is the
DepthMesh conversion routine (none when the conversion is unavailable on
the current platform). -/
structure FrameEnv where
  session : Session
  hasRefSpace : Bool
  pose : Option (List Nat)
  cpuInfo : Nat → Option XRCPUDepthInformation
  gpuInfo : Nat → Option XRWebGLDepthInformation
  cameras : Nat → Camera
  convertGPUToGPU : XRWebGLDepthInformation → Option XRCPUDepthInformation

/-- State of the Depth class.  JS arrays written by sparse index
assignment (view, depthArray) are modelled as maps from index to Option;
the arrays read through length (cpuDepthData, gpuDepthData) are lists of
Options; the six per-view matrix and pose arrays, which only ever grow by
push, are plain lists. -/
structure DepthState where
  enabled : Bool
  view : Nat → Option Nat
  cpuDepthData : List (Option XRCPUDepthInformation)
  gpuDepthData : List (Option XRWebGLDepthInformation)
  depthArray : Nat → Option (List ℚ)
  depthMesh : Option DepthMeshState
  depthTextures : Option (Nat → Option TexRecord)
  options : DepthOptions
  width : Nat
  height : Nat
  depthClientsInitialized : Bool
  depthClients : Finset Nat
  depthProjectionMatrices : List Mat4
  depthProjectionInverseMatrices : List Mat4
  depthViewMatrices : List Mat4
  depthViewProjectionMatrices : List Mat4
  depthCameraPositions : List Vec3
  depthCameraRotations : List Quat

/-- JS sparse array assignment l[i] = a: pads with undefined entries up to
index i, then stores a there; length becomes max of the old length and
i + 1. -/
def jsArraySet {α : Type} (l : List (Option α)) (i : Nat) (a : α) : List (Option α) :=
  (l ++ List.replicate (i + 1 - l.length) none).set i (some a)

/-- TypedArray.prototype.set: copies the source over the front of the
target, keeping the tail of a longer target.  A source longer than the
target raises a RangeError in JS; that branch (modelled as truncation
here) is not exercised by any theorem below. -/
def typedArraySet (target src : List ℚ) : List ℚ :=
  src.take target.length ++ target.drop src.length

/-- The while loop at the top of updateDepthMatrices: pushes default
entries (identity matrices, zero vector, identity quaternion) onto all
six per-view arrays until index viewId exists, the condition being read
from depthViewMatrices. -/
def ensureMatrixCapacity (s : DepthState) (viewId : Nat) : DepthState :=
  let k := viewId + 1 - s.depthViewMatrices.length
  { s with
    depthViewMatrices := s.depthViewMatrices ++ List.replicate k 1,
    depthViewProjectionMatrices := s.depthViewProjectionMatrices ++ List.replicate k 1,
    depthProjectionMatrices := s.depthProjectionMatrices ++ List.replicate k 1,
    depthProjectionInverseMatrices := s.depthProjectionInverseMatrices ++ List.replicate k 1,
    depthCameraPositions := s.depthCameraPositions ++ List.replicate k vec3Zero,
    depthCameraRotations := s.depthCameraRotations ++ List.replicate k quatId }

/-- Depth.updateDepthMatrices.  When the depth information carries both a
projection matrix and a transform they are used (view matrix from the
transform inverse); otherwise the color camera for that view is
substituted.  On both paths the inverse projection and the
view-projection product are then recomputed from the just-set
matrices. -/
def updateDepthMatrices (env : FrameEnv) (s : DepthState)
    (projectionMatrix : Option Mat4) (transform : Option XRRigidTransform)
    (viewId : Nat) : DepthState :=
  let s := ensureMatrixCapacity s viewId
  let s :=
    match projectionMatrix, transform with
    | some pm, some tf =>
      { s with
        depthProjectionMatrices := s.depthProjectionMatrices.set viewId pm,
        depthViewMatrices := s.depthViewMatrices.set viewId tf.inverseMatrix,
        depthCameraPositions := s.depthCameraPositions.set viewId tf.position,
        depthCameraRotations := s.depthCameraRotations.set viewId tf.orientation }
    | _, _ =>
      let camera := env.cameras viewId
      { s with
        depthProjectionMatrices := s.depthProjectionMatrices.set viewId camera.projectionMatrix,
        depthViewMatrices := s.depthViewMatrices.set viewId camera.matrixWorldInverse,
        depthCameraPositions := s.depthCameraPositions.set viewId camera.position,
        depthCameraRotations := s.depthCameraRotations.set viewId camera.quaternion }
  { s with
    depthProjectionInverseMatrices :=
      s.depthProjectionInverseMatrices.set viewId
        (mat4Invert (s.depthProjectionMatrices.getD viewId 1)),
    depthViewProjectionMatrices :=
      s.depthViewProjectionMatrices.set viewId
        (s.depthProjectionMatrices.getD viewId 1 * s.depthViewMatrices.getD viewId 1) }

/-- The depth texture refresh block shared by both ingestion paths: when
texture delivery is enabled and the DepthTextures consumer exists, record
the update for the given view (updateData on the CPU path,
updateNativeTexture on the GPU path, distinguished by the record). -/
def updateDepthTexture (s : DepthState) (rec : TexRecord) (viewId : Nat) : DepthState :=
  if s.options.depthTextureEnabled then
    match s.depthTextures with
    | some t => { s with depthTextures := some (Function.update t viewId (some rec)) }
    | none => s
  else s

/-- The depth mesh refresh block shared by both ingestion paths: when the
mesh consumer is enabled and constructed and this is view 0, record the
geometry update and copy the view-0 camera pose onto the mesh. -/
def updateDepthMeshPose (s : DepthState) (upd : MeshUpdate) (viewId : Nat) : DepthState :=
  if s.options.depthMeshEnabled && viewId == 0 then
    match s.depthMesh with
    | some mesh =>
      { s with depthMesh := some { mesh with
          updates := mesh.updates ++ [upd],
          position := s.depthCameraPositions.getD 0 vec3Zero,
          quaternion := s.depthCameraRotations.getD 0 quatId } }
    | none => s
  else s

/-- The depth array write of the GPU path: nothing without a converted
buffer; with one, the entry is created when absent (also adopting the
converted width and height) and overwritten in place otherwise. -/
def storeConvertedDepth (s : DepthState) (cpuDepth : Option XRCPUDepthInformation)
    (viewId : Nat) : DepthState :=
  match cpuDepth with
  | none => s
  | some c =>
    match s.depthArray viewId with
    | none =>
      { s with
        depthArray := Function.update s.depthArray viewId (some c.data),
        width := c.width,
        height := c.height }
    | some old =>
      { s with
        depthArray := Function.update s.depthArray viewId (some (typedArraySet old c.data)) }

/-- Depth.updateCPUDepthData: stores the raw sample, updates the per-view
matrices, overwrites the depth array, width and height, then feeds the
depth texture and the depth mesh when those consumers are enabled and
constructed. -/
def updateCPUDepthData (env : FrameEnv) (s : DepthState)
    (depthData : XRCPUDepthInformation) (viewId : Nat) : DepthState :=
  let s := { s with cpuDepthData := jsArraySet s.cpuDepthData viewId depthData }
  let s := updateDepthMatrices env s depthData.projectionMatrix depthData.transform viewId
  let s := { s with
    depthArray := Function.update s.depthArray viewId (some depthData.data),
    width := depthData.width,
    height := depthData.height }
  let s := updateDepthTexture s (TexRecord.cpu depthData) viewId
  updateDepthMeshPose s
    (MeshUpdate.cpu depthData (s.depthProjectionInverseMatrices.getD 0 1)) viewId

/-- Depth.updateGPUDepthData: stores the raw sample and updates the
per-view matrices; the GPU-to-CPU conversion runs only when the depth
mesh consumer is enabled and constructed, and only then is the depth
array entry written; the depth texture is refreshed whenever texture
delivery is enabled; the mesh receives the converted buffer when one
exists and the GPU handle otherwise. -/
def updateGPUDepthData (env : FrameEnv) (s : DepthState)
    (depthData : XRWebGLDepthInformation) (viewId : Nat) : DepthState :=
  let s := { s with gpuDepthData := jsArraySet s.gpuDepthData viewId depthData }
  let s := updateDepthMatrices env s depthData.projectionMatrix depthData.transform viewId
  let cpuDepth :=
    if s.options.depthMeshEnabled && s.depthMesh.isSome then env.convertGPUToGPU depthData
    else none
  let s := storeConvertedDepth s cpuDepth viewId
  let s := updateDepthTexture s (TexRecord.gpu depthData) viewId
  let upd :=
    match cpuDepth with
    | some c => MeshUpdate.cpu c (s.depthProjectionInverseMatrices.getD 0 1)
    | none => MeshUpdate.gpu depthData (s.depthProjectionInverseMatrices.getD 0 1)
  updateDepthMeshPose s upd viewId

/-- The rawValueToMeters getter: scale from the first CPU sample when any
exists, else from the first GPU sample when any exists, else 0.  A
nonempty array whose slot 0 is a hole makes the JS getter dereference
undefined; that raises a TypeError, modelled as Except.error. -/
def rawValueToMeters (s : DepthState) : Except Unit ℚ :=
  if s.cpuDepthData.length ≠ 0 then
    match s.cpuDepthData.getD 0 none with
    | some d => Except.ok d.rawValueToMeters
    | none => Except.error ()
  else if s.gpuDepthData.length ≠ 0 then
    match s.gpuDepthData.getD 0 none with
    | some d => Except.ok d.rawValueToMeters
    | none => Except.error ()
  else Except.ok 0

/-- Column index computed by getDepth: Math.round of the clamp of u times
width to the interval from 0 to width minus 1 (JS Math.round is floor of
the argument plus one half, which is exactly Mathlib round on ℚ). -/
def depthX (s : DepthState) (u : ℚ) : ℤ :=
  round (clamp (u * s.width) 0 ((s.width : ℚ) - 1))

/-- Row index computed by getDepth: the v coordinate is measured from the
top, hence the vertical flip 1 - v before scaling by height. -/
def depthY (s : DepthState) (v : ℚ) : ℤ :=
  round (clamp ((1 - v) * s.height) 0 ((s.height : ℚ) - 1))

/-- Flat buffer index used by getDepth and getVertex: row times width
plus column. -/
def depthIndex (s : DepthState) (u v : ℚ) : ℤ :=
  depthY s v * s.width + depthX s u

/-- Depth.getDepth: 0 when no view-0 depth array exists, otherwise the
raw value at the nearest pixel scaled by the rawValueToMeters getter. -/
def getDepth (s : DepthState) (u v : ℚ) : Except Unit ℚ :=
  match s.depthArray 0 with
  | none => Except.ok 0
  | some arr =>
    match rawValueToMeters s with
    | Except.error e => Except.error e
    | Except.ok r => Except.ok (r * arr.getD (depthIndex s u v).toNat 0)

/-- Depth.getVertex: null (ok none) when no view-0 depth array exists;
otherwise unprojects the clip-space point (2u-1, 2v-1, -1) through the
view-0 inverse projection matrix and rescales so the z-component is the
negated sampled depth.  Reading an absent inverse projection matrix
would raise a TypeError in JS, modelled as Except.error. -/
def getVertex (s : DepthState) (u v : ℚ) : Except Unit (Option Vec3) :=
  match s.depthArray 0 with
  | none => Except.ok none
  | some arr =>
    match rawValueToMeters s with
    | Except.error e => Except.error e
    | Except.ok r =>
      let depth := r * arr.getD (depthIndex s u v).toNat 0
      match s.depthProjectionInverseMatrices.get? 0 with
      | none => Except.error ()
      | some m =>
        let vertexPosition :=
          applyMatrix4 m { x := 2 * (u - 1/2), y := 2 * (v - 1/2), z := -1 }
        Except.ok (some (smulV3 (-depth / vertexPosition.z) vertexPosition))

/-- Depth.getProjectedDepthViewPositionFromWorldPosition: projects a world
position through the view-0 view and projection matrices, samples the
depth at the resulting coordinates and unprojects through the inverse
projection matrix.  The matrix accesses are unguarded in the source, so
an absent entry raises a TypeError, modelled as Except.error. -/
def getProjectedDepthViewPositionFromWorldPosition (s : DepthState) (position : Vec3) :
    Except Unit Vec3 :=
  match s.depthViewMatrices.get? 0 with
  | none => Except.error ()
  | some viewM =>
    match s.depthProjectionMatrices.get? 0 with
    | none => Except.error ()
    | some projM =>
      let clipSpacePosition := applyMatrix4 projM (applyMatrix4 viewM position)
      let u := (1/2) * (clipSpacePosition.x + 1)
      let v := (1/2) * (clipSpacePosition.y + 1)
      match getDepth s u v with
      | Except.error e => Except.error e
      | Except.ok depth =>
        match s.depthProjectionInverseMatrices.get? 0 with
        | none => Except.error ()
        | some projInv =>
          let target :=
            applyMatrix4 projInv { x := 2 * (u - 1/2), y := 2 * (v - 1/2), z := -1 }
          Except.ok (smulV3 (-depth / target.z) target)

/-- Depth.resumeDepth: idempotent client registration. -/
def resumeDepth (s : DepthState) (client : Nat) : DepthState :=
  { s with depthClientsInitialized := true,
           depthClients := insert client s.depthClients }

/-- Depth.pauseDepth: idempotent client removal. -/
def pauseDepth (s : DepthState) (client : Nat) : DepthState :=
  { s with depthClientsInitialized := true,
           depthClients := s.depthClients.erase client }

/-- The per-view loop body of updateLocalDepth: stores the view object,
fetches the raw depth information for the declared delivery mode, and on
a missing sample aborts the remaining views of the frame. -/
def processViews (env : FrameEnv) : List Nat → Nat → DepthState → DepthState
  | [], _, s => s
  | viewObj :: rest, viewId, s =>
    let s1 := { s with view := Function.update s.view viewId (some viewObj) }
    if env.session.depthUsage = DepthUsage.gpuOptimized then
      match env.gpuInfo viewId with
      | none => s1
      | some depthData => processViews env rest (viewId + 1) (updateGPUDepthData env s1 depthData viewId)
    else
      match env.cpuInfo viewId with
      | none => s1
      | some depthData => processViews env rest (viewId + 1) (updateCPUDepthData env s1 depthData viewId)

/-- The pose-and-views tail of updateLocalDepth: nothing is written when
the reference space or the viewer pose is unavailable (the pose case only
logs). -/
def updateLocalDepthViews (env : FrameEnv) (session : Session) (s : DepthState) :
    DepthState × Session :=
  if env.hasRefSpace then
    match env.pose with
    | some views => (processViews env views 0 s, session)
    | none => (s, session)
  else (s, session)

/-- Depth.updateLocalDepth.  When the session exposes pausable depth
sensing and at least one client registration event has occurred, sensing
is paused or resumed to match whether any client is registered, and an
empty registry exits the frame before any state is written.  The session
component of the result carries the pause and resume side effects. -/
def updateLocalDepth (env : FrameEnv) (s : DepthState) : DepthState × Session :=
  let session := env.session
  let pausingDepthSupported := session.depthActive.isSome
  if pausingDepthSupported && s.depthClientsInitialized then
    let needsDepth := decide (0 < s.depthClients.card)
    let session1 :=
      if session.depthActive.getD false && !needsDepth then
        { session with depthActive := some false }
      else if !(session.depthActive.getD false) && needsDepth then
        { session with depthActive := some true }
      else session
    if s.depthClients.card = 0 then (s, session1)
    else updateLocalDepthViews env session1 s
  else updateLocalDepthViews env session s

/-- Whether the frame can supply raw depth information for the view at
the given index under the declared delivery mode. -/
def rawInfoPresent (env : FrameEnv) (viewId : Nat) : Bool :=
  if env.session.depthUsage = DepthUsage.gpuOptimized then (env.gpuInfo viewId).isSome
  else (env.cpuInfo viewId).isSome

/-- Agreement of two states on the depth array and the six per-view
matrix and pose arrays (the data an aborted frame must leave intact). -/
def sameDepthAndMatrices (a b : DepthState) : Prop :=
  a.depthArray = b.depthArray ∧
  a.depthProjectionMatrices = b.depthProjectionMatrices ∧
  a.depthProjectionInverseMatrices = b.depthProjectionInverseMatrices ∧
  a.depthViewMatrices = b.depthViewMatrices ∧
  a.depthViewProjectionMatrices = b.depthViewProjectionMatrices ∧
  a.depthCameraPositions = b.depthCameraPositions ∧
  a.depthCameraRotations = b.depthCameraRotations

/-- Default DepthOptions with every feature disabled. -/
def defaultOptions : DepthOptions :=
  { enabled := false, useFloat32 := false, depthTextureEnabled := false,
    depthMeshEnabled := false, occlusionEnabled := false }

/-- The state of a Depth instance right after construction and init: all
arrays empty, default 160 by 160 size, no clients; options and the
optional mesh and texture consumers are whatever init configured. -/
def freshState (opts : DepthOptions) (mesh : Option DepthMeshState)
    (tex : Option (Nat → Option TexRecord)) : DepthState :=
  { enabled := opts.enabled,
    view := fun _ => none,
    cpuDepthData := [],
    gpuDepthData := [],
    depthArray := fun _ => none,
    depthMesh := mesh,
    depthTextures := tex,
    options := opts,
    width := 160,
    height := 160,
    depthClientsInitialized := false,
    depthClients := ∅,
    depthProjectionMatrices := [],
    depthProjectionInverseMatrices := [],
    depthViewMatrices := [],
    depthViewProjectionMatrices := [],
    depthCameraPositions := [],
    depthCameraRotations := [] }

/-- A freshly constructed Depth instance with every consumer disabled. -/
def initialState : DepthState := freshState defaultOptions none none

/-- States of a Depth instance reachable through its public mutating
interface from a freshly initialized instance. -/
inductive Reachable : DepthState → Prop
  | fresh (opts : DepthOptions) (mesh : Option DepthMeshState)
      (tex : Option (Nat → Option TexRecord)) : Reachable (freshState opts mesh tex)
  | cpu (env : FrameEnv) (depthData : XRCPUDepthInformation) (viewId : Nat) {s : DepthState} :
      Reachable s → Reachable (updateCPUDepthData env s depthData viewId)
  | gpu (env : FrameEnv) (depthData : XRWebGLDepthInformation) (viewId : Nat) {s : DepthState} :
      Reachable s → Reachable (updateGPUDepthData env s depthData viewId)
  | frame (env : FrameEnv) {s : DepthState} :
      Reachable s → Reachable (updateLocalDepth env s).1
  | acquire (client : Nat) {s : DepthState} :
      Reachable s → Reachable (resumeDepth s client)
  | release (client : Nat) {s : DepthState} :
      Reachable s → Reachable (pauseDepth s client)

/-- Alignment of the six per-view arrays: they always grow together, so
their lengths agree (an invariant of every reachable state, proved
below). -/
def MatricesAligned (s : DepthState) : Prop :=
  s.depthProjectionMatrices.length = s.depthViewMatrices.length ∧
  s.depthProjectionInverseMatrices.length = s.depthViewMatrices.length ∧
  s.depthViewProjectionMatrices.length = s.depthViewMatrices.length ∧
  s.depthCameraPositions.length = s.depthViewMatrices.length ∧
  s.depthCameraRotations.length = s.depthViewMatrices.length

/-- Every populated depth array slot has matching per-view matrix
entries. -/
def DepthArrayCovered (s : DepthState) : Prop :=
  ∀ v : Nat, (s.depthArray v).isSome → v < s.depthViewMatrices.length

/-- The state invariant maintained by every public mutating operation:
the six per-view arrays are aligned and cover every populated depth
array slot. -/
def DepthInv (s : DepthState) : Prop := MatricesAligned s ∧ DepthArrayCovered s

/-- Camera with identity matrices at the origin. -/
def defaultCamera : Camera :=
  { projectionMatrix := 1, matrixWorldInverse := 1, position := vec3Zero, quaternion := quatId }

/-- A frame environment that supplies nothing: no pausable sensing, CPU
delivery mode, no reference space, no raw data, identity fallback
cameras, conversion unavailable. -/
def trivEnv : FrameEnv :=
  { session := { depthActive := none, depthUsage := DepthUsage.cpuOptimized },
    hasRefSpace := false,
    pose := none,
    cpuInfo := fun _ => none,
    gpuInfo := fun _ => none,
    cameras := fun _ => defaultCamera,
    convertGPUToGPU := fun _ => none }

/-- The identity rigid transform. -/
def idTransform : XRRigidTransform :=
  { inverseMatrix := 1, position := vec3Zero, orientation := quatId }

/-- The concrete scenario sample of the spec: width 4, height 4, every
raw value 1000, scale one thousandth, identity pose. -/
def cpuSample : XRCPUDepthInformation :=
  { width := 4, height := 4, rawValueToMeters := 1/1000,
    data := List.replicate 16 1000,
    projectionMatrix := some 1, transform := some idTransform }

/-- The state after ingesting the scenario sample for view 0. -/
def cpuSampleState : DepthState := updateCPUDepthData trivEnv initialState cpuSample 0

/-- A GPU sample with identity pose. -/
def gpuSample : XRWebGLDepthInformation :=
  { rawValueToMeters := 1/1000, textureId := 3,
    projectionMatrix := some 1, transform := some idTransform }

/-- The state after a GPU ingestion for view 0 with the depth mesh
consumer disabled: matrices populated, depth array still empty. -/
def gpuNoMeshState : DepthState := updateGPUDepthData trivEnv initialState gpuSample 0

/-- A frame environment with two views whose CPU raw data is available
only for view 0: view 1 is missing, so ingestion aborts there. -/
def twoViewEnv : FrameEnv :=
  { session := { depthActive := none, depthUsage := DepthUsage.cpuOptimized },
    hasRefSpace := true,
    pose := some [10, 11],
    cpuInfo := fun i => if i = 0 then some cpuSample else none,
    gpuInfo := fun _ => none,
    cameras := fun _ => defaultCamera,
    convertGPUToGPU := fun _ => none }

/-- A session that exposes pausable depth sensing, currently active. -/
def pausedSession : Session :=
  { depthActive := some true, depthUsage := DepthUsage.cpuOptimized }

/-- trivEnv with the pausable session. -/
def gatedEnv : FrameEnv := { trivEnv with session := pausedSession }

/-- A state where one release call has occurred and no client is
registered. -/
def gatedState : DepthState := pauseDepth initialState 0

/-! ## Helper lemmas -/

theorem getD_set_self {α : Type} (l : List α) (i : Nat) (a d : α) (h : i < l.length) :
    (l.set i a).getD i d = a := by
  induction l generalizing i with
  | nil => simp at h
  | cons x xs ih =>
    cases i with
    | zero => rfl
    | succ n => simpa using ih n (by simpa using h)

theorem round_nonneg {q : ℚ} (h : 0 ≤ q) : 0 ≤ round q := by
  rw [round_eq]
  exact Int.floor_nonneg.2 (by linarith)

theorem round_le_int {q : ℚ} {n : ℤ} (h : q ≤ n) : round q ≤ n := by
  rw [round_eq]
  have hlt : q + 1/2 < (n : ℚ) + 1 := by linarith
  have : ⌊q + 1/2⌋ < n + 1 := Int.floor_lt.2 (by push_cast; linarith)
  omega

theorem clamp_nonneg (x hi : ℚ) : 0 ≤ clamp x 0 hi := le_max_left 0 _

theorem clamp_le_hi {x lo hi : ℚ} (h : lo ≤ hi) : clamp x lo hi ≤ hi :=
  max_le h (min_le_left hi x)

theorem mat4Invert_mul {m : Mat4} (hm : m.det ≠ 0) : mat4Invert m * m = 1 := by
  rw [mat4Invert, if_neg hm, Matrix.smul_mul, Matrix.adjugate_mul, smul_smul,
      inv_mul_cancel₀ hm, one_smul]

/-! ## Claim theorems -/

/-- C1: in any state where the view-0 depth array exists and the
rawValueToMeters getter succeeds, getDepth returns the getter value times
the raw buffer entry at index row times width plus column, where the
column is the rounded clamp of u times width to the interval from 0 to
width minus 1 and the row is the rounded clamp of (1 - v) times height to
the interval from 0 to height minus 1. -/
theorem getDepth_scale_formula (s : DepthState) (u v : ℚ) (arr : List ℚ) (r : ℚ)
    (hArr : s.depthArray 0 = some arr) (hr : rawValueToMeters s = Except.ok r) :
    getDepth s u v = Except.ok (r * arr.getD (depthIndex s u v).toNat 0) := by
  simp [getDepth, hArr, hr]

/-- C1 witness: the spec scenario: a CPU sample of width 4 and height 4,
all raw values 1000, scale one thousandth, queried at the center, yields
exactly one meter. -/
theorem getDepth_scale_formula_witness :
    getDepth cpuSampleState (1/2) (1/2) = Except.ok 1 := by
  have h := getDepth_scale_formula cpuSampleState (1/2) (1/2)
    (List.replicate 16 1000) (1/1000) rfl rfl
  rw [h]
  have hw : cpuSampleState.width = 4 := rfl
  have hh : cpuSampleState.height = 4 := rfl
  have hx : depthX cpuSampleState (1/2) = 2 := by
    rw [depthX, hw, clamp]
    norm_num
  have hy : depthY cpuSampleState (1/2) = 2 := by
    rw [depthY, hh, clamp]
    norm_num
  have hidx : depthIndex cpuSampleState (1/2) (1/2) = 10 := by
    rw [depthIndex, hx, hy, hw]
    norm_num
  rw [hidx]
  norm_num [List.getD_eq_getElem?_getD, List.getElem?_replicate]

/-- C2: after every call to updateDepthMatrices, on the
session-transform path and the camera fallback path alike, the stored
view-projection matrix is exactly the product of the stored projection
and view matrices, and whenever the stored projection matrix is
invertible the stored inverse times it is the identity (exact over the
rationals; the alignment hypothesis is the invariant every reachable
state satisfies). -/
theorem updateDepthMatrices_composed (env : FrameEnv) (s : DepthState)
    (projectionMatrix : Option Mat4) (transform : Option XRRigidTransform) (viewId : Nat)
    (hAl : MatricesAligned s) :
    (updateDepthMatrices env s projectionMatrix transform viewId).depthViewProjectionMatrices.getD viewId 1 =
      (updateDepthMatrices env s projectionMatrix transform viewId).depthProjectionMatrices.getD viewId 1 *
        (updateDepthMatrices env s projectionMatrix transform viewId).depthViewMatrices.getD viewId 1 ∧
    (((updateDepthMatrices env s projectionMatrix transform viewId).depthProjectionMatrices.getD viewId 1).det ≠ 0 →
      (updateDepthMatrices env s projectionMatrix transform viewId).depthProjectionInverseMatrices.getD viewId 1 *
        (updateDepthMatrices env s projectionMatrix transform viewId).depthProjectionMatrices.getD viewId 1 = 1) := by
  obtain ⟨h1, h2, h3, h4, h5⟩ := hAl
  have hvpm : viewId < (ensureMatrixCapacity s viewId).depthViewProjectionMatrices.length := by
    simp [ensureMatrixCapacity]
    omega
  have hpim : viewId < (ensureMatrixCapacity s viewId).depthProjectionInverseMatrices.length := by
    simp [ensureMatrixCapacity]
    omega
  unfold updateDepthMatrices
  cases projectionMatrix with
  | none =>
    simp only []
    constructor
    · rw [getD_set_self _ _ _ _ (by simpa using hvpm)]
    · intro hdet
      rw [getD_set_self _ _ _ _ (by simpa using hpim)]
      exact mat4Invert_mul hdet
  | some pm =>
    cases transform with
    | none =>
      simp only []
      constructor
      · rw [getD_set_self _ _ _ _ (by simpa using hvpm)]
      · intro hdet
        rw [getD_set_self _ _ _ _ (by simpa using hpim)]
        exact mat4Invert_mul hdet
    | some tf =>
      simp only []
      constructor
      · rw [getD_set_self _ _ _ _ (by simpa using hvpm)]
      · intro hdet
        rw [getD_set_self _ _ _ _ (by simpa using hpim)]
        exact mat4Invert_mul hdet

/-- C2 witness: a concrete update with an identity projection from the
session transform satisfies both matrix invariants. -/
theorem updateDepthMatrices_composed_witness :
    (updateDepthMatrices trivEnv initialState (some 1) (some idTransform) 0).depthViewProjectionMatrices.getD 0 1 =
      (updateDepthMatrices trivEnv initialState (some 1) (some idTransform) 0).depthProjectionMatrices.getD 0 1 *
        (updateDepthMatrices trivEnv initialState (some 1) (some idTransform) 0).depthViewMatrices.getD 0 1 ∧
    (updateDepthMatrices trivEnv initialState (some 1) (some idTransform) 0).depthProjectionInverseMatrices.getD 0 1 *
      (updateDepthMatrices trivEnv initialState (some 1) (some idTransform) 0).depthProjectionMatrices.getD 0 1 = 1 := by
  have h := updateDepthMatrices_composed trivEnv initialState (some 1) (some idTransform) 0
    ⟨rfl, rfl, rfl, rfl, rfl⟩
  refine ⟨h.1, h.2 ?_⟩
  have : (updateDepthMatrices trivEnv initialState (some 1) (some idTransform) 0).depthProjectionMatrices.getD 0 1 = 1 := rfl
  rw [this, Matrix.det_one]
  norm_num

/-- C3: with a session that supports pausing depth sensing and after at
least one client registration event, a call to updateLocalDepth while
the client set is empty leaves the whole depth state unchanged. -/
theorem updateLocalDepth_emptyRegistry_noop (env : FrameEnv) (s : DepthState)
    (hcap : env.session.depthActive.isSome = true)
    (hinit : s.depthClientsInitialized = true)
    (hempty : s.depthClients = ∅) :
    (updateLocalDepth env s).1 = s := by
  simp [updateLocalDepth, hcap, hinit, hempty]

/-- C3 witness: a pausable active session, one prior release call, empty
registry: the frame call is a no-op on the depth state. -/
theorem updateLocalDepth_emptyRegistry_noop_witness :
    (updateLocalDepth gatedEnv gatedState).1 = gatedState :=
  updateLocalDepth_emptyRegistry_noop gatedEnv gatedState rfl rfl (by decide)

/-- C5: for every rational u and v, the buffer index computed by
getDepth, row times width plus column after rounding and clamping, lies
in the interval from 0 to width times height (exclusive), whenever width
and height are positive. -/
theorem getDepth_index_in_bounds (s : DepthState) (u v : ℚ)
    (hw : 0 < s.width) (hh : 0 < s.height) :
    0 ≤ depthIndex s u v ∧ depthIndex s u v < (s.width : ℤ) * s.height := by
  have hw1 : (1 : ℚ) ≤ (s.width : ℚ) := by exact_mod_cast hw
  have hh1 : (1 : ℚ) ≤ (s.height : ℚ) := by exact_mod_cast hh
  have hx0 : 0 ≤ depthX s u := round_nonneg (clamp_nonneg _ _)
  have hy0 : 0 ≤ depthY s v := round_nonneg (clamp_nonneg _ _)
  have hx1 : depthX s u ≤ (s.width : ℤ) - 1 := by
    apply round_le_int
    push_cast
    exact clamp_le_hi (by linarith)
  have hy1 : depthY s v ≤ (s.height : ℤ) - 1 := by
    apply round_le_int
    push_cast
    exact clamp_le_hi (by linarith)
  have hw0 : (0 : ℤ) ≤ (s.width : ℤ) := by positivity
  have hmul : depthY s v * (s.width : ℤ) ≤ ((s.height : ℤ) - 1) * s.width :=
    mul_le_mul_of_nonneg_right hy1 hw0
  have hwi : (1 : ℤ) ≤ (s.width : ℤ) := by exact_mod_cast hw
  constructor
  · have := mul_nonneg hy0 hw0
    unfold depthIndex
    omega
  · unfold depthIndex
    nlinarith

/-- C5 witness: the bound holds at the freshly initialized 160 by 160
state and the corner coordinates. -/
theorem getDepth_index_in_bounds_witness :
    0 ≤ depthIndex initialState 0 0 ∧
    depthIndex initialState 0 0 < (initialState.width : ℤ) * initialState.height :=
  getDepth_index_in_bounds initialState 0 0 (by decide) (by decide)

/-- C8: resumeDepth and pauseDepth are idempotent set insert and remove:
two resumeDepth calls with one handle starting from an empty registry
leave the cardinality at 1, pauseDepth for an unregistered handle leaves
the set unchanged, and the first call of either kind sets the
depthClientsInitialized flag. -/
theorem clientRegistry_idempotent (s : DepthState) (client : Nat)
    (hempty : s.depthClients = ∅) (hnot : client ∉ s.depthClients) :
    (resumeDepth (resumeDepth s client) client).depthClients.card = 1 ∧
    (pauseDepth s client).depthClients = s.depthClients ∧
    (resumeDepth s client).depthClientsInitialized = true ∧
    (pauseDepth s client).depthClientsInitialized = true := by
  refine ⟨?_, ?_, rfl, rfl⟩
  · simp [resumeDepth, hempty]
  · simp [pauseDepth, Finset.erase_eq_of_not_mem hnot]

/-- C8 witness: concrete handle 7 on the fresh instance. -/
theorem clientRegistry_idempotent_witness :
    (resumeDepth (resumeDepth initialState 7) 7).depthClients.card = 1 ∧
    (pauseDepth initialState 7).depthClients = initialState.depthClients ∧
    (resumeDepth initialState 7).depthClientsInitialized = true ∧
    (pauseDepth initialState 7).depthClientsInitialized = true :=
  clientRegistry_idempotent initialState 7 rfl (by decide)

theorem applyMatrix4_one (v : Vec3) : applyMatrix4 1 v = v := by
  simp [applyMatrix4, Matrix.one_apply]

theorem mat4Invert_one : mat4Invert (1 : Mat4) = 1 := by
  rw [mat4Invert, if_neg] <;> simp [Matrix.det_one, Matrix.adjugate_one]

@[simp]
theorem updateDepthMatrices_preserves (env : FrameEnv) (s : DepthState)
    (pm : Option Mat4) (tf : Option XRRigidTransform) (viewId : Nat) :
    (updateDepthMatrices env s pm tf viewId).depthArray = s.depthArray ∧
    (updateDepthMatrices env s pm tf viewId).depthTextures = s.depthTextures ∧
    (updateDepthMatrices env s pm tf viewId).depthMesh = s.depthMesh ∧
    (updateDepthMatrices env s pm tf viewId).options = s.options ∧
    (updateDepthMatrices env s pm tf viewId).width = s.width ∧
    (updateDepthMatrices env s pm tf viewId).height = s.height ∧
    (updateDepthMatrices env s pm tf viewId).cpuDepthData = s.cpuDepthData ∧
    (updateDepthMatrices env s pm tf viewId).gpuDepthData = s.gpuDepthData ∧
    (updateDepthMatrices env s pm tf viewId).view = s.view ∧
    (updateDepthMatrices env s pm tf viewId).depthClients = s.depthClients ∧
    (updateDepthMatrices env s pm tf viewId).depthClientsInitialized = s.depthClientsInitialized := by
  unfold updateDepthMatrices ensureMatrixCapacity
  cases pm <;> cases tf <;> simp

@[simp]
theorem updateDepthTexture_preserves (s : DepthState) (rec : TexRecord) (viewId : Nat) :
    (updateDepthTexture s rec viewId).depthArray = s.depthArray ∧
    (updateDepthTexture s rec viewId).depthMesh = s.depthMesh ∧
    (updateDepthTexture s rec viewId).options = s.options ∧
    (updateDepthTexture s rec viewId).width = s.width ∧
    (updateDepthTexture s rec viewId).height = s.height ∧
    (updateDepthTexture s rec viewId).cpuDepthData = s.cpuDepthData ∧
    (updateDepthTexture s rec viewId).gpuDepthData = s.gpuDepthData ∧
    (updateDepthTexture s rec viewId).view = s.view ∧
    (updateDepthTexture s rec viewId).depthClients = s.depthClients ∧
    (updateDepthTexture s rec viewId).depthClientsInitialized = s.depthClientsInitialized ∧
    (updateDepthTexture s rec viewId).depthProjectionMatrices = s.depthProjectionMatrices ∧
    (updateDepthTexture s rec viewId).depthProjectionInverseMatrices = s.depthProjectionInverseMatrices ∧
    (updateDepthTexture s rec viewId).depthViewMatrices = s.depthViewMatrices ∧
    (updateDepthTexture s rec viewId).depthViewProjectionMatrices = s.depthViewProjectionMatrices ∧
    (updateDepthTexture s rec viewId).depthCameraPositions = s.depthCameraPositions ∧
    (updateDepthTexture s rec viewId).depthCameraRotations = s.depthCameraRotations := by
  unfold updateDepthTexture
  split
  · split <;> simp
  · simp

@[simp]
theorem updateDepthMeshPose_preserves (s : DepthState) (upd : MeshUpdate) (viewId : Nat) :
    (updateDepthMeshPose s upd viewId).depthArray = s.depthArray ∧
    (updateDepthMeshPose s upd viewId).depthTextures = s.depthTextures ∧
    (updateDepthMeshPose s upd viewId).options = s.options ∧
    (updateDepthMeshPose s upd viewId).width = s.width ∧
    (updateDepthMeshPose s upd viewId).height = s.height ∧
    (updateDepthMeshPose s upd viewId).cpuDepthData = s.cpuDepthData ∧
    (updateDepthMeshPose s upd viewId).gpuDepthData = s.gpuDepthData ∧
    (updateDepthMeshPose s upd viewId).view = s.view ∧
    (updateDepthMeshPose s upd viewId).depthClients = s.depthClients ∧
    (updateDepthMeshPose s upd viewId).depthClientsInitialized = s.depthClientsInitialized ∧
    (updateDepthMeshPose s upd viewId).depthProjectionMatrices = s.depthProjectionMatrices ∧
    (updateDepthMeshPose s upd viewId).depthProjectionInverseMatrices = s.depthProjectionInverseMatrices ∧
    (updateDepthMeshPose s upd viewId).depthViewMatrices = s.depthViewMatrices ∧
    (updateDepthMeshPose s upd viewId).depthViewProjectionMatrices = s.depthViewProjectionMatrices ∧
    (updateDepthMeshPose s upd viewId).depthCameraPositions = s.depthCameraPositions ∧
    (updateDepthMeshPose s upd viewId).depthCameraRotations = s.depthCameraRotations := by
  unfold updateDepthMeshPose
  split
  · split <;> simp
  · simp

@[simp]
theorem storeConvertedDepth_preserves (s : DepthState)
    (cpuDepth : Option XRCPUDepthInformation) (viewId : Nat) :
    (storeConvertedDepth s cpuDepth viewId).depthTextures = s.depthTextures ∧
    (storeConvertedDepth s cpuDepth viewId).depthMesh = s.depthMesh ∧
    (storeConvertedDepth s cpuDepth viewId).options = s.options ∧
    (storeConvertedDepth s cpuDepth viewId).cpuDepthData = s.cpuDepthData ∧
    (storeConvertedDepth s cpuDepth viewId).gpuDepthData = s.gpuDepthData ∧
    (storeConvertedDepth s cpuDepth viewId).view = s.view ∧
    (storeConvertedDepth s cpuDepth viewId).depthClients = s.depthClients ∧
    (storeConvertedDepth s cpuDepth viewId).depthClientsInitialized = s.depthClientsInitialized ∧
    (storeConvertedDepth s cpuDepth viewId).depthProjectionMatrices = s.depthProjectionMatrices ∧
    (storeConvertedDepth s cpuDepth viewId).depthProjectionInverseMatrices = s.depthProjectionInverseMatrices ∧
    (storeConvertedDepth s cpuDepth viewId).depthViewMatrices = s.depthViewMatrices ∧
    (storeConvertedDepth s cpuDepth viewId).depthViewProjectionMatrices = s.depthViewProjectionMatrices ∧
    (storeConvertedDepth s cpuDepth viewId).depthCameraPositions = s.depthCameraPositions ∧
    (storeConvertedDepth s cpuDepth viewId).depthCameraRotations = s.depthCameraRotations := by
  unfold storeConvertedDepth
  split
  · simp
  · split <;> simp

/-- C9: in any state with a view-0 depth array, a successful
rawValueToMeters getter and a present view-0 inverse projection matrix,
when the unprojection of the clip-space point (2u-1, 2v-1, -1) through
that matrix has nonzero z-component, getVertex returns that vector scaled
by the negated sampled depth over its z-component, so the z-component of
the result is exactly the negated getDepth value. -/
theorem getVertex_unprojection (s : DepthState) (u v : ℚ) (arr : List ℚ) (r : ℚ) (m : Mat4)
    (hArr : s.depthArray 0 = some arr) (hr : rawValueToMeters s = Except.ok r)
    (hm : s.depthProjectionInverseMatrices.get? 0 = some m)
    (hz : (applyMatrix4 m { x := 2 * u - 1, y := 2 * v - 1, z := -1 }).z ≠ 0) :
    getDepth s u v = Except.ok (r * arr.getD (depthIndex s u v).toNat 0) ∧
    getVertex s u v = Except.ok (some (smulV3
      (-(r * arr.getD (depthIndex s u v).toNat 0) /
        (applyMatrix4 m { x := 2 * u - 1, y := 2 * v - 1, z := -1 }).z)
      (applyMatrix4 m { x := 2 * u - 1, y := 2 * v - 1, z := -1 }))) ∧
    (smulV3 (-(r * arr.getD (depthIndex s u v).toNat 0) /
        (applyMatrix4 m { x := 2 * u - 1, y := 2 * v - 1, z := -1 }).z)
      (applyMatrix4 m { x := 2 * u - 1, y := 2 * v - 1, z := -1 })).z =
      -(r * arr.getD (depthIndex s u v).toNat 0) := by
  have hveq : (Vec3.mk (2 * (u - 1/2)) (2 * (v - 1/2)) (-1)) =
      Vec3.mk (2 * u - 1) (2 * v - 1) (-1) := by
    simp only [Vec3.mk.injEq]
    refine ⟨by ring, by ring, trivial⟩
  refine ⟨by simp [getDepth, hArr, hr], ?_, ?_⟩
  · simp only [getVertex, hArr, hr, hm, hveq]
  · simp only [smulV3]
    exact div_mul_cancel₀ _ hz

/-- C9 witness: the scenario state queried at the center with the
identity projection yields the vertex (0, 0, -1), whose z-component is
the negated one-meter depth. -/
theorem getVertex_unprojection_witness :
    getVertex cpuSampleState (1/2) (1/2) = Except.ok (some (Vec3.mk 0 0 (-1))) := by
  have h := getVertex_unprojection cpuSampleState (1/2) (1/2)
    (List.replicate 16 1000) (1/1000) (mat4Invert 1) rfl rfl rfl
    (by rw [mat4Invert_one, applyMatrix4_one]; norm_num)
  rw [h.2.1, mat4Invert_one, applyMatrix4_one]
  have hidx : depthIndex cpuSampleState (1/2) (1/2) = 10 := by
    have hw : cpuSampleState.width = 4 := rfl
    have hh : cpuSampleState.height = 4 := rfl
    rw [depthIndex, depthX, depthY, hw, hh, clamp, clamp]
    norm_num
  rw [hidx]
  norm_num [smulV3, List.getD_eq_getElem?_getD, List.getElem?_replicate, Vec3.mk.injEq]

/-- C6 counterexample: in the reachable initial state, where no frame has
been ingested, getProjectedDepthViewPositionFromWorldPosition reads the
absent view-0 view matrix and throws (models the TypeError raised by
applyMatrix4 on undefined), contradicting the claim that every query
returns a documented default. -/
theorem getProjected_initial_throws :
    Reachable initialState ∧
    getProjectedDepthViewPositionFromWorldPosition initialState vec3Zero = Except.error () :=
  ⟨Reachable.fresh defaultOptions none none, rfl⟩

/-- C6 amended: getDepth and getVertex do return the documented defaults
(0 and null) without throwing whenever no view-0 depth array exists, in
particular before any frame has been ingested; but
getProjectedDepthViewPositionFromWorldPosition only returns without
throwing once the view-0 matrix entries exist, which the counterexample
shows fails in the initial state. -/
theorem queries_uninitialized_defaults (s : DepthState) (u v : ℚ) (p : Vec3)
    (hArr : s.depthArray 0 = none) :
    getDepth s u v = Except.ok 0 ∧
    getVertex s u v = Except.ok none ∧
    (∀ mV mP, s.depthViewMatrices.get? 0 = some mV →
      s.depthProjectionMatrices.get? 0 = some mP →
      0 < s.depthProjectionInverseMatrices.length →
      ∃ w, getProjectedDepthViewPositionFromWorldPosition s p = Except.ok w) := by
  refine ⟨by simp [getDepth, hArr], by simp [getVertex, hArr], ?_⟩
  intro mV mP hV hP hlen
  obtain ⟨mI, hI⟩ : ∃ mI, s.depthProjectionInverseMatrices.get? 0 = some mI :=
    ⟨s.depthProjectionInverseMatrices.get ⟨0, hlen⟩, List.get?_eq_get hlen⟩
  rw [List.get?_eq_getElem?] at hV hP hI
  simp [getProjectedDepthViewPositionFromWorldPosition, hV, hP, getDepth, hArr, hI]

/-- C6 amended witness: after a GPU ingestion with the mesh consumer
disabled the matrices exist while the depth array is still empty; all
three queries return without throwing. -/
theorem queries_uninitialized_defaults_witness :
    getDepth gpuNoMeshState 0 0 = Except.ok 0 ∧
    getVertex gpuNoMeshState 0 0 = Except.ok none ∧
    (∃ w, getProjectedDepthViewPositionFromWorldPosition gpuNoMeshState vec3Zero = Except.ok w) := by
  have h := queries_uninitialized_defaults gpuNoMeshState 0 0 vec3Zero rfl
  exact ⟨h.1, h.2.1, h.2.2 _ _ rfl rfl (by decide)⟩

/-- C7: on the GPU path the conversion result is stored into the depth
array for the view only when the depth-mesh consumer is enabled and
constructed and the conversion succeeds; when the consumer is missing or
conversion is unavailable the depth array is left untouched, while the
depth texture entry for the view is refreshed whenever texture delivery
is enabled. -/
theorem updateGPUDepthData_lazy_conversion (env : FrameEnv) (s : DepthState)
    (depthData : XRWebGLDepthInformation) (viewId : Nat) :
    (s.options.depthMeshEnabled = false ∨ s.depthMesh = none ∨
        env.convertGPUToGPU depthData = none →
      (updateGPUDepthData env s depthData viewId).depthArray = s.depthArray) ∧
    (∀ c, s.options.depthMeshEnabled = true → s.depthMesh.isSome = true →
      env.convertGPUToGPU depthData = some c →
      (updateGPUDepthData env s depthData viewId).depthArray viewId =
        some (match s.depthArray viewId with
              | none => c.data
              | some old => typedArraySet old c.data)) ∧
    (∀ t, s.options.depthTextureEnabled = true → s.depthTextures = some t →
      (updateGPUDepthData env s depthData viewId).depthTextures =
        some (Function.update t viewId (some (TexRecord.gpu depthData)))) := by
  refine ⟨?_, ?_, ?_⟩
  · intro h
    rcases h with h | h | h <;> simp [updateGPUDepthData, storeConvertedDepth, h]
  · intro c hme hmesh hconv
    cases hda : s.depthArray viewId with
    | none =>
      simp [updateGPUDepthData, storeConvertedDepth, hme, hmesh, hconv, hda]
    | some old =>
      simp [updateGPUDepthData, storeConvertedDepth, hme, hmesh, hconv, hda]
  · intro t htexEnabled htex
    simp [updateGPUDepthData, updateDepthTexture, htexEnabled, htex]

/-- C7 witness: with the mesh consumer disabled (so no CPU-buffer
dependency) but texture delivery enabled, a GPU update leaves the depth
array untouched and refreshes the texture entry. -/
theorem updateGPUDepthData_lazy_conversion_witness :
    (updateGPUDepthData trivEnv (freshState { defaultOptions with depthTextureEnabled := true }
        none (some (fun _ => none))) gpuSample 0).depthArray =
      (freshState { defaultOptions with depthTextureEnabled := true }
        none (some (fun _ => none))).depthArray ∧
    (updateGPUDepthData trivEnv (freshState { defaultOptions with depthTextureEnabled := true }
        none (some (fun _ => none))) gpuSample 0).depthTextures =
      some (Function.update (fun _ => none) 0 (some (TexRecord.gpu gpuSample))) := by
  have h := updateGPUDepthData_lazy_conversion trivEnv
    (freshState { defaultOptions with depthTextureEnabled := true } none (some (fun _ => none)))
    gpuSample 0
  exact ⟨h.1 (Or.inl rfl), h.2.2 (fun _ => none) rfl rfl⟩

theorem processViews_take (env : FrameEnv) :
    ∀ (k : Nat) (views : List Nat) (i : Nat) (s : DepthState),
      (∀ j, j < k → rawInfoPresent env (i + j) = true) →
      rawInfoPresent env (i + k) = false →
      k < views.length →
      sameDepthAndMatrices (processViews env views i s)
        (processViews env (views.take k) i s) := by
  intro k
  induction k with
  | zero =>
    intro views i s _ habs hlen
    match views with
    | [] => simp at hlen
    | v :: rest =>
      rw [List.take_zero]
      simp only [Nat.add_zero] at habs
      by_cases hu : env.session.depthUsage = DepthUsage.gpuOptimized
      · rw [rawInfoPresent, if_pos hu] at habs
        cases hgp : env.gpuInfo i with
        | some d => rw [hgp] at habs; simp at habs
        | none => simp [processViews, hu, hgp, sameDepthAndMatrices]
      · rw [rawInfoPresent, if_neg hu] at habs
        cases hgp : env.cpuInfo i with
        | some d => rw [hgp] at habs; simp at habs
        | none => simp [processViews, hu, hgp, sameDepthAndMatrices]
  | succ k ih =>
    intro views i s hpres habs hlen
    match views with
    | [] => simp at hlen
    | v :: rest =>
      have hp0 : rawInfoPresent env i = true := by
        have := hpres 0 (Nat.succ_pos k)
        simpa using this
      have hpres1 : ∀ j, j < k → rawInfoPresent env (i + 1 + j) = true := by
        intro j hj
        have := hpres (j + 1) (Nat.succ_lt_succ hj)
        rwa [show i + (j + 1) = i + 1 + j by omega] at this
      have habs1 : rawInfoPresent env (i + 1 + k) = false := by
        rwa [show i + 1 + k = i + (k + 1) by omega]
      have hlen1 : k < rest.length := by simpa using hlen
      rw [List.take_succ_cons]
      by_cases hu : env.session.depthUsage = DepthUsage.gpuOptimized
      · obtain ⟨d, hd⟩ : ∃ d, env.gpuInfo i = some d := by
          rw [rawInfoPresent, if_pos hu] at hp0
          exact Option.isSome_iff_exists.mp hp0
        simp only [processViews, hu, if_pos, hd]
        exact ih rest (i + 1) _ hpres1 habs1 hlen1
      · obtain ⟨d, hd⟩ : ∃ d, env.cpuInfo i = some d := by
          rw [rawInfoPresent, if_neg hu] at hp0
          exact Option.isSome_iff_exists.mp hp0
        simp only [processViews, hu, if_neg, hd]
        exact ih rest (i + 1) _ hpres1 habs1 hlen1

/-- C4: within one updateLocalDepth call that reaches the per-view loop,
if the raw depth information is present for views below k and missing
for view k (with k below the view count), the resulting depth array and
the six per-view matrix and pose arrays are exactly those produced by
ingesting only views 0 to k-1: the committed prefix is kept and every
later view keeps its pre-call values. -/
theorem updateLocalDepth_missing_aborts (env : FrameEnv) (s : DepthState)
    (views : List Nat) (k : Nat)
    (hG : env.session.depthActive.isSome = false ∨ s.depthClientsInitialized = false ∨
      s.depthClients.card ≠ 0)
    (hRef : env.hasRefSpace = true) (hPose : env.pose = some views)
    (hk : k < views.length)
    (hpres : ∀ j, j < k → rawInfoPresent env j = true)
    (habs : rawInfoPresent env k = false) :
    sameDepthAndMatrices (updateLocalDepth env s).1
      (processViews env (views.take k) 0 s) := by
  have hrun : (updateLocalDepth env s).1 = processViews env views 0 s := by
    unfold updateLocalDepth updateLocalDepthViews
    rcases hG with h | h | h
    · simp [h, hRef, hPose]
    · simp [h, hRef, hPose]
    · cases hinit : s.depthClientsInitialized with
      | false => simp [hinit, hRef, hPose]
      | true =>
        by_cases hcap : env.session.depthActive.isSome
        · simp [hcap, hinit, h, hRef, hPose]
        · simp [hcap, hinit, hRef, hPose]
  rw [hrun]
  have hpres0 : ∀ j, j < k → rawInfoPresent env (0 + j) = true := by
    intro j hj
    simpa using hpres j hj
  have habs0 : rawInfoPresent env (0 + k) = false := by simpa using habs
  exact processViews_take env k views 0 s hpres0 habs0 hk

/-- C4 witness: two views with raw data only for view 0: the frame call
commits view 0 and equals the one-view prefix ingestion. -/
theorem updateLocalDepth_missing_aborts_witness :
    sameDepthAndMatrices (updateLocalDepth twoViewEnv initialState).1
      (processViews twoViewEnv ([10, 11].take 1) 0 initialState) := by
  apply updateLocalDepth_missing_aborts twoViewEnv initialState [10, 11] 1
  · exact Or.inl rfl
  · rfl
  · rfl
  · decide
  · decide
  · decide

theorem updateDepthMatrices_lengths (env : FrameEnv) (s : DepthState)
    (pm : Option Mat4) (tf : Option XRRigidTransform) (viewId : Nat) :
    (updateDepthMatrices env s pm tf viewId).depthViewMatrices.length
      = s.depthViewMatrices.length + (viewId + 1 - s.depthViewMatrices.length) ∧
    (updateDepthMatrices env s pm tf viewId).depthProjectionMatrices.length
      = s.depthProjectionMatrices.length + (viewId + 1 - s.depthViewMatrices.length) ∧
    (updateDepthMatrices env s pm tf viewId).depthProjectionInverseMatrices.length
      = s.depthProjectionInverseMatrices.length + (viewId + 1 - s.depthViewMatrices.length) ∧
    (updateDepthMatrices env s pm tf viewId).depthViewProjectionMatrices.length
      = s.depthViewProjectionMatrices.length + (viewId + 1 - s.depthViewMatrices.length) ∧
    (updateDepthMatrices env s pm tf viewId).depthCameraPositions.length
      = s.depthCameraPositions.length + (viewId + 1 - s.depthViewMatrices.length) ∧
    (updateDepthMatrices env s pm tf viewId).depthCameraRotations.length
      = s.depthCameraRotations.length + (viewId + 1 - s.depthViewMatrices.length) := by
  unfold updateDepthMatrices ensureMatrixCapacity
  cases pm <;> cases tf <;> simp

theorem depthInv_updateDepthMatrices (env : FrameEnv) (s : DepthState)
    (pm : Option Mat4) (tf : Option XRRigidTransform) (viewId : Nat) (h : DepthInv s) :
    DepthInv (updateDepthMatrices env s pm tf viewId) ∧
    viewId < (updateDepthMatrices env s pm tf viewId).depthViewMatrices.length := by
  obtain ⟨⟨a1, a2, a3, a4, a5⟩, hc⟩ := h
  obtain ⟨l1, l2, l3, l4, l5, l6⟩ := updateDepthMatrices_lengths env s pm tf viewId
  obtain ⟨hda, -⟩ := updateDepthMatrices_preserves env s pm tf viewId
  refine ⟨⟨⟨by omega, by omega, by omega, by omega, by omega⟩, ?_⟩, by omega⟩
  intro v hv
  rw [hda] at hv
  have := hc v hv
  omega

theorem depthInv_updateDepthTexture (s : DepthState) (rec : TexRecord) (viewId : Nat)
    (h : DepthInv s) : DepthInv (updateDepthTexture s rec viewId) := by
  obtain ⟨hda, -, -, -, -, -, -, -, -, -, -, -, hvm, -, -, -⟩ :=
    updateDepthTexture_preserves s rec viewId
  obtain ⟨⟨a1, a2, a3, a4, a5⟩, hc⟩ := h
  refine ⟨⟨?_, ?_, ?_, ?_, ?_⟩, ?_⟩
  · simp [a1]
  · simp [a2]
  · simp [a3]
  · simp [a4]
  · simp [a5]
  · intro v hv
    rw [hda] at hv
    rw [hvm]
    exact hc v hv

theorem depthInv_updateDepthMeshPose (s : DepthState) (upd : MeshUpdate) (viewId : Nat)
    (h : DepthInv s) : DepthInv (updateDepthMeshPose s upd viewId) := by
  obtain ⟨hda, -, -, -, -, -, -, -, -, -, -, -, hvm, -, -, -⟩ :=
    updateDepthMeshPose_preserves s upd viewId
  obtain ⟨⟨a1, a2, a3, a4, a5⟩, hc⟩ := h
  refine ⟨⟨?_, ?_, ?_, ?_, ?_⟩, ?_⟩
  · simp [a1]
  · simp [a2]
  · simp [a3]
  · simp [a4]
  · simp [a5]
  · intro v hv
    rw [hda] at hv
    rw [hvm]
    exact hc v hv

theorem depthInv_storeConvertedDepth (s : DepthState)
    (cpuDepth : Option XRCPUDepthInformation) (viewId : Nat)
    (h : DepthInv s) (hlt : viewId < s.depthViewMatrices.length) :
    DepthInv (storeConvertedDepth s cpuDepth viewId) := by
  obtain ⟨hal, hc⟩ := h
  unfold storeConvertedDepth
  cases cpuDepth with
  | none => exact ⟨hal, hc⟩
  | some c =>
    cases hda : s.depthArray viewId with
    | none =>
      refine ⟨hal, ?_⟩
      intro v hv
      by_cases hveq : v = viewId
      · subst hveq
        exact hlt
      · rw [show ({ s with
            depthArray := Function.update s.depthArray viewId (some c.data),
            width := c.width, height := c.height } : DepthState).depthArray
            = Function.update s.depthArray viewId (some c.data) from rfl,
          Function.update_noteq hveq] at hv
        exact hc v hv
    | some old =>
      refine ⟨hal, ?_⟩
      intro v hv
      by_cases hveq : v = viewId
      · subst hveq
        exact hlt
      · rw [show ({ s with
            depthArray := Function.update s.depthArray viewId (some (typedArraySet old c.data)) } : DepthState).depthArray
            = Function.update s.depthArray viewId (some (typedArraySet old c.data)) from rfl,
          Function.update_noteq hveq] at hv
        exact hc v hv

theorem depthInv_updateCPUDepthData (env : FrameEnv) (s : DepthState)
    (depthData : XRCPUDepthInformation) (viewId : Nat) (h : DepthInv s) :
    DepthInv (updateCPUDepthData env s depthData viewId) := by
  unfold updateCPUDepthData
  have h1 : DepthInv { s with cpuDepthData := jsArraySet s.cpuDepthData viewId depthData } := h
  obtain ⟨⟨hal, hc⟩, hlt⟩ := depthInv_updateDepthMatrices env _
    depthData.projectionMatrix depthData.transform viewId h1
  apply depthInv_updateDepthMeshPose
  apply depthInv_updateDepthTexture
  refine ⟨hal, ?_⟩
  intro v hv
  by_cases hveq : v = viewId
  · subst hveq
    exact hlt
  · rw [show ∀ t : DepthState, ({ t with
        depthArray := Function.update t.depthArray viewId (some depthData.data),
        width := depthData.width, height := depthData.height } : DepthState).depthArray
        = Function.update t.depthArray viewId (some depthData.data) from fun _ => rfl,
      Function.update_noteq hveq] at hv
    exact hc v hv

theorem depthInv_updateGPUDepthData (env : FrameEnv) (s : DepthState)
    (depthData : XRWebGLDepthInformation) (viewId : Nat) (h : DepthInv s) :
    DepthInv (updateGPUDepthData env s depthData viewId) := by
  unfold updateGPUDepthData
  have h1 : DepthInv { s with gpuDepthData := jsArraySet s.gpuDepthData viewId depthData } := h
  obtain ⟨h2, hlt⟩ := depthInv_updateDepthMatrices env _
    depthData.projectionMatrix depthData.transform viewId h1
  apply depthInv_updateDepthMeshPose
  apply depthInv_updateDepthTexture
  exact depthInv_storeConvertedDepth _ _ _ h2 hlt

theorem depthInv_processViews (env : FrameEnv) :
    ∀ (views : List Nat) (i : Nat) (s : DepthState),
      DepthInv s → DepthInv (processViews env views i s) := by
  intro views
  induction views with
  | nil => intro i s h; exact h
  | cons v rest ih =>
    intro i s h
    have hview : DepthInv { s with view := Function.update s.view i (some v) } := h
    by_cases hu : env.session.depthUsage = DepthUsage.gpuOptimized
    · cases hgp : env.gpuInfo i with
      | none => simpa [processViews, hu, hgp] using hview
      | some d =>
        simp only [processViews, hu, if_pos, hgp]
        exact ih (i + 1) _ (depthInv_updateGPUDepthData env _ d i hview)
    · cases hgp : env.cpuInfo i with
      | none => simpa [processViews, hu, hgp] using hview
      | some d =>
        simp only [processViews, hu, if_neg, hgp]
        exact ih (i + 1) _ (depthInv_updateCPUDepthData env _ d i hview)

theorem depthInv_updateLocalDepthViews (env : FrameEnv) (session : Session) (s : DepthState)
    (h : DepthInv s) : DepthInv (updateLocalDepthViews env session s).1 := by
  unfold updateLocalDepthViews
  split
  · cases hp : env.pose with
    | none => simpa [hp] using h
    | some views =>
      simp only [hp]
      exact depthInv_processViews env views 0 s h
  · exact h

theorem depthInv_updateLocalDepth (env : FrameEnv) (s : DepthState)
    (h : DepthInv s) : DepthInv (updateLocalDepth env s).1 := by
  unfold updateLocalDepth
  by_cases hcond : (env.session.depthActive.isSome && s.depthClientsInitialized) = true
  · by_cases hcard : s.depthClients.card = 0
    · simpa [hcond, hcard] using h
    · simp only [hcond, hcard, if_true, if_false]
      exact depthInv_updateLocalDepthViews env _ s h
  · simp only [Bool.not_eq_true] at hcond
    simp only [hcond, Bool.false_eq_true, if_false]
    exact depthInv_updateLocalDepthViews env _ s h

theorem depthInv_freshState (opts : DepthOptions) (mesh : Option DepthMeshState)
    (tex : Option (Nat → Option TexRecord)) : DepthInv (freshState opts mesh tex) := by
  refine ⟨⟨rfl, rfl, rfl, rfl, rfl⟩, ?_⟩
  intro v hv
  simp [freshState] at hv

theorem reachable_depthInv {s : DepthState} (h : Reachable s) : DepthInv s := by
  induction h with
  | fresh opts mesh tex => exact depthInv_freshState opts mesh tex
  | cpu env depthData viewId _ ih => exact depthInv_updateCPUDepthData env _ depthData viewId ih
  | gpu env depthData viewId _ ih => exact depthInv_updateGPUDepthData env _ depthData viewId ih
  | frame env _ ih => exact depthInv_updateLocalDepth env _ ih
  | acquire client _ ih => exact ih
  | release client _ ih => exact ih

/-- C10: in every reachable state, a populated depth array slot for some
view implies that all six per-view matrix and pose arrays extend past
that view index, because both ingestion paths populate the matrices for
a view before storing its depth array; getVertex therefore never reads
an absent matrix once its depth-array check passes. -/
theorem depthArray_entails_matrix_capacity (s : DepthState) (viewId : Nat)
    (hreach : Reachable s) (hv : (s.depthArray viewId).isSome = true) :
    viewId < s.depthViewMatrices.length ∧
    viewId < s.depthProjectionMatrices.length ∧
    viewId < s.depthProjectionInverseMatrices.length ∧
    viewId < s.depthViewProjectionMatrices.length ∧
    viewId < s.depthCameraPositions.length ∧
    viewId < s.depthCameraRotations.length := by
  obtain ⟨⟨a1, a2, a3, a4, a5⟩, hc⟩ := reachable_depthInv hreach
  have := hc viewId hv
  omega

/-- C10 witness: after one CPU ingestion for view 0 from the fresh state,
the view-0 depth array exists and every matrix array has an entry for
view 0. -/
theorem depthArray_entails_matrix_capacity_witness :
    0 < cpuSampleState.depthViewMatrices.length ∧
    0 < cpuSampleState.depthProjectionMatrices.length ∧
    0 < cpuSampleState.depthProjectionInverseMatrices.length ∧
    0 < cpuSampleState.depthViewProjectionMatrices.length ∧
    0 < cpuSampleState.depthCameraPositions.length ∧
    0 < cpuSampleState.depthCameraRotations.length :=
  depthArray_entails_matrix_capacity cpuSampleState 0
    (Reachable.cpu trivEnv cpuSample 0 (Reachable.fresh defaultOptions none none)) rfl
